import Mathlib

/-!
# Verification of `metisoft-facebook-auth` (src/src/index.js)

A shallow embedding of the Facebook-authentication middleware and its
identity-resolution pipeline, together with theorems settling the spec's
claims about it.

Modelling conventions:
* JavaScript values appearing as record fields are modelled by `JVal`
  (including `null` and `undefined`); JS string truthiness is the
  non-empty-string test.
* The in-process cache `__mapAccessToken2UserData` is modelled as a total
  function `String → Option InternalUserData`; `hasOwnProperty` is
  `Option.isSome` of the lookup, property deletion maps the key to `none`.
  (Prototype-chain quirks of JS objects are outside the model.)
* The provider's raw HTTP response is abstracted by its `JSON.parse`
  outcome: a transport failure, an unparsable body (`JSON.parse` throws),
  or a parsed payload.
* The database client (`metisoft-database-util`) is external; its observable
  behaviour is modelled per the module's use of it: a uniqueness-keyed
  select returning at most one row, and an insert returning a generated
  identifier. Accessing the connection handle before `config` has run
  raises, which the promise chain's final `catch` absorbs.
* All asynchronous promise chains in the source resolve sequentially per
  request, so each middleware invocation is one state-transition step.
-/

namespace FacebookAuth

/-- A JavaScript value as it can appear in a parsed JSON payload or a
database column: `undefined`, `null`, a string, a number, or a boolean. -/
inductive JVal where
  | jundef : JVal
  | jnull : JVal
  | jstr : String → JVal
  | jnum : Int → JVal
  | jbool : Bool → JVal
deriving DecidableEq, Repr

/-- The parsed Facebook Graph API payload. Each field is `some v` when the
corresponding key is an own property of the parsed object (with value `v`,
possibly `jnull` or `jundef`) and `none` when the key is absent. -/
structure Payload where
  id : Option JVal
  name : Option JVal
  email : Option JVal
deriving DecidableEq, Repr

/-- The `InternalUserData` typedef (src/src/index.js lines 24-33): the canonical
internal identity record. `id` is `none` until the record is persisted. -/
structure InternalUserData where
  id : Option Nat
  facebookId : JVal
  email : JVal
  fullName : JVal
deriving DecidableEq, Repr

/-- A row of the `site_user` table: `id`, `facebook_user_id`, `email`,
`full_name`. -/
structure Row where
  id : Nat
  facebookId : JVal
  email : JVal
  fullName : JVal
deriving DecidableEq, Repr

/-- The relational store backing the User Store Adapter: the rows of
`site_user` and the next identifier the database will generate. -/
structure Store where
  rows : List Row
  nextId : Nat
deriving DecidableEq, Repr

/-- The in-process cache `__mapAccessToken2UserData` (line 20): a mapping
from access-token strings to resolved records. -/
def Cache : Type := String → Option InternalUserData

/-- The empty cache: the module-level initial value `{}`. -/
def Cache.empty : Cache := fun _ => none

/-- Assignment `cache[token] = userData` (line 67). -/
def Cache.insert (c : Cache) (token : String) (u : InternalUserData) : Cache :=
  fun t => if t = token then some u else c t

/-- Deletion `delete cache[key]` (line 258). -/
def Cache.erase (c : Cache) (key : String) : Cache :=
  fun t => if t = key then none else c t

/-- The provider's answer for one request, abstracted to its parse outcome:
`transportFail` (the request-promise rejects), or `body p` where `p` is the
result of `JSON.parse` on the response text (`none` when parsing throws). -/
inductive ProviderResponse where
  | transportFail : ProviderResponse
  | body : Option Payload → ProviderResponse
deriving DecidableEq, Repr

/-- The external world's behaviour during one middleware invocation: what
the provider answers per token, whether the database insert fails, and
whether `session.save` reports an error to its callback. -/
structure Env where
  provider : String → ProviderResponse
  insertFails : Bool
  sessionSaveFails : Bool

/-- Function `__isValidFacebookUserData` (lines 117-123): presence-only validation —
`hasOwnProperty` on each of `id`, `name`, `email`; the values themselves
are not inspected. -/
def isValidFacebookUserData (p : Payload) : Bool :=
  p.id.isSome && p.name.isSome && p.email.isSome

/-- Function `__formatUserDataAsInternal` (lines 136-144): translate the provider
payload into the internal shape (`id → facebookId`, `name → fullName`,
`email → email`); the internal `id` is left unset. Property access on an
absent key yields `undefined`. -/
def formatUserDataAsInternal (p : Payload) : InternalUserData :=
  { id := none
    facebookId := p.id.getD JVal.jundef
    fullName := p.name.getD JVal.jundef
    email := p.email.getD JVal.jundef }

/-- Convert a `site_user` row to the aliased shape the select returns
(`facebook_user_id AS facebookId`, `full_name AS fullName`). -/
def rowToInternal (r : Row) : InternalUserData :=
  { id := some r.id, facebookId := r.facebookId
    email := r.email, fullName := r.fullName }

/-- Function `__getUserFromDb` (lines 181-194): a select keyed on
`facebook_user_id = ?` with `limit 1` — the first matching row, if any. -/
def getUserFromDb (st : Store) (facebookId : JVal) : Option Row :=
  st.rows.find? (fun r => decide (r.facebookId = facebookId))

/-- Outcome of the lookup-or-create operation: the resulting record (or
`null` on insert failure), the store afterwards, and the number of insert
statements attempted. -/
structure SaveOut where
  result : Option InternalUserData
  store : Store
  inserts : Nat
deriving DecidableEq, Repr

/-- Function `__addUserToDb` (lines 208-228): insert `facebookId`, `email`,
`fullName` into `site_user` returning the generated `id`; on success set
`userData.id` from the returned row and return `userData`; on failure log
and return `null` (the store is unchanged when the statement is rejected). -/
def addUserToDb (insertFails : Bool) (st : Store) (userData : InternalUserData) : SaveOut :=
  if insertFails then
    { result := none, store := st, inserts := 1 }
  else
    { result := some { userData with id := some st.nextId }
      store :=
        { rows := st.rows ++
            [{ id := st.nextId, facebookId := userData.facebookId
               email := userData.email, fullName := userData.fullName }]
          nextId := st.nextId + 1 }
      inserts := 1 }

/-- Function `__saveUserToDb` (lines 158-168): look the user up by `facebookId`;
`if (!user.id)` insert, else return the found row. For a found row the id
is a database-generated number, so `!user.id` is `id = 0`; when the select
matches no row the external query helper yields no `id` (spec §4.3: "If
not found, insert a new record"), so the insert branch is taken. The
overall call is `none` when `config` has never run: `dbc` is undefined and
`dbc.getSquelSelect()` raises, which the caller's `catch` absorbs. -/
def saveUserToDb (configured : Bool) (insertFails : Bool) (st : Store)
    (userData : InternalUserData) : Option SaveOut :=
  if configured then
    some (match getUserFromDb st userData.facebookId with
      | some row =>
          if row.id = 0 then addUserToDb insertFails st userData
          else { result := some (rowToInternal row), store := st, inserts := 0 }
      | none => addUserToDb insertFails st userData)
  else none

/-- Outcome of one identity resolution: the resolved record (or `null`),
the cache and store afterwards, and how many provider calls, store
lookup-or-create calls, and insert attempts were performed. -/
structure ResolveOut where
  result : Option InternalUserData
  cache : Cache
  store : Store
  providerCalls : Nat
  storeCalls : Nat
  inserts : Nat

/-- Function `__getUserDataFromAccessToken` (lines 46-79), the Identity Resolver.
If the token is a cache key, resolve to the cached record at once.
Otherwise call the provider (`__getUserDataFromFacebook`), `JSON.parse`
the response, validate it, translate and delegate to `__saveUserToDb`;
cache and return the persisted record exactly when it is non-null. Every
failure inside the chain (transport rejection, parse throw, raise from an
unconfigured connection handle) reaches the final `catch`, which logs and
resolves to `null` without touching the cache. -/
def getUserDataFromAccessToken (configured : Bool) (env : Env) (cache : Cache)
    (st : Store) (accessToken : String) : ResolveOut :=
  match cache accessToken with
  | some u =>
      { result := some u, cache := cache, store := st
        providerCalls := 0, storeCalls := 0, inserts := 0 }
  | none =>
      match env.provider accessToken with
      | ProviderResponse.transportFail =>
          { result := none, cache := cache, store := st
            providerCalls := 1, storeCalls := 0, inserts := 0 }
      | ProviderResponse.body none =>
          { result := none, cache := cache, store := st
            providerCalls := 1, storeCalls := 0, inserts := 0 }
      | ProviderResponse.body (some payload) =>
          if isValidFacebookUserData payload then
            match saveUserToDb configured env.insertFails st
                (formatUserDataAsInternal payload) with
            | some so =>
                match so.result with
                | some u =>
                    { result := some u, cache := cache.insert accessToken u
                      store := so.store, providerCalls := 1, storeCalls := 1
                      inserts := so.inserts }
                | none =>
                    { result := none, cache := cache, store := so.store
                      providerCalls := 1, storeCalls := 1, inserts := so.inserts }
            | none =>
                { result := none, cache := cache, store := st
                  providerCalls := 1, storeCalls := 1, inserts := 0 }
          else
            { result := none, cache := cache, store := st
              providerCalls := 1, storeCalls := 0, inserts := 0 }

/-- The identity-bearing part of the session: `req.session.user`, holding
the persisted access token. -/
structure SessionUser where
  facebookAccessToken : Option String
deriving DecidableEq, Repr

/-- The session `req.session`: present or absent on the request; `user` is the
session-held identity state. -/
structure Session where
  user : Option SessionUser
deriving DecidableEq, Repr

/-- The body `req.body`: the login request body, possibly carrying a token. -/
structure Body where
  facebookAccessToken : Option String
deriving DecidableEq, Repr

/-- An inbound request as the middleware reads it: `req.url`, `req.body`
and `req.session` (either may be absent). -/
structure Request where
  url : String
  body : Option Body
  session : Option Session
deriving DecidableEq, Repr

/-- The identity fields written to `res.locals.metisoft.user` on success
(lines 275-278). -/
structure LocalsUser where
  id : Option Nat
  facebookId : JVal
  email : JVal
  fullName : JVal
deriving DecidableEq, Repr

/-- JavaScript truthiness of an optional string field: present and
non-empty. -/
def jsTruthy : Option String → Bool
  | none => false
  | some s => !(s = "")

/-- Token extraction (lines 251-255): prefer `req.body.facebookAccessToken`
when truthy, else `req.session.user.facebookAccessToken` when truthy, else
the token stays `undefined`. -/
def extractToken (req : Request) : Option String :=
  let fromSession : Option String :=
    match req.session with
    | some s =>
        match s.user with
        | some u =>
            if jsTruthy u.facebookAccessToken then u.facebookAccessToken else none
        | none => none
    | none => none
  match req.body with
  | some b => if jsTruthy b.facebookAccessToken then b.facebookAccessToken else fromSession
  | none => fromSession

/-- The JS object-property key the extracted token coerces to in
`delete __mapAccessToken2UserData[accessToken]`: `String(undefined)` is
`"undefined"`. -/
def tokenKey : Option String → String
  | some t => t
  | none => "undefined"

/-- Function `__isLogoutRoute` (lines 320-322). -/
def isLogoutRoute (url : String) : Bool :=
  url = "/services/userAuth/logout"

/-- The mutable state the middleware closes over between requests: the
token cache, the database, and whether `config` has installed a
connection handle. -/
structure Sys where
  cache : Cache
  store : Store
  configured : Bool

/-- The module's state right after loading, with `config` applied when
`cfg` is true: empty cache, the given database contents. -/
def Sys.init (cfg : Bool) (st : Store) : Sys :=
  { cache := Cache.empty, store := st, configured := cfg }

/-- Everything observable about one middleware invocation: the shared
state afterwards, the request's session afterwards, the identity written
to `res.locals.metisoft.user`, the JSON error body sent (if any), whether
`res.end()` ran, whether `next()` ran, whether an exception escaped the
middleware synchronously, and the I/O counts of the resolution performed. -/
structure MwResult where
  sys : Sys
  session : Option Session
  localsUser : Option LocalsUser
  sent : Option String
  ended : Bool
  calledNext : Bool
  threw : Bool
  providerCalls : Nat
  storeCalls : Nat
  inserts : Nat

/-- Statement `if (req.session && req.session.user) delete req.session.user`
(lines 296-298 and 307-309). -/
def clearSessionUser : Option Session → Option Session
  | some s => some { s with user := none }
  | none => none

/-- Function `facebookAuthMiddleware` (lines 247-316) as one state-transition step.
Extract the token; on the logout route evict its cache key, call
`req.session.destroy()` (which raises a `TypeError` when `req.session` is
absent — the eviction has already happened) and call `next()`. Otherwise,
with a truthy token, resolve it: on a record, populate
`res.locals.metisoft.user`, persist the token into the session when one
exists (`session.save` errors are only logged) and call `next()`; on
`null`, the chain's `catch` clears `req.session.user` and sends the
terminal `LOGIN_REQUIRED` body. With no truthy token, the same failure
response is sent directly. -/
def facebookAuthMiddleware (sys : Sys) (env : Env) (req : Request) : MwResult :=
  let accessToken := extractToken req
  if isLogoutRoute req.url then
    let cache1 := sys.cache.erase (tokenKey accessToken)
    match req.session with
    | none =>
        { sys := { sys with cache := cache1 }, session := none
          localsUser := none, sent := none, ended := false
          calledNext := false, threw := true
          providerCalls := 0, storeCalls := 0, inserts := 0 }
    | some _ =>
        { sys := { sys with cache := cache1 }, session := none
          localsUser := none, sent := none, ended := false
          calledNext := true, threw := false
          providerCalls := 0, storeCalls := 0, inserts := 0 }
  else
    match accessToken with
    | some tok =>
        let r := getUserDataFromAccessToken sys.configured env sys.cache sys.store tok
        match r.result with
        | some u =>
            { sys := { sys with cache := r.cache, store := r.store }
              session :=
                match req.session with
                | some _ => some { user := some { facebookAccessToken := some tok } }
                | none => none
              localsUser := some
                { id := u.id, facebookId := u.facebookId
                  email := u.email, fullName := u.fullName }
              sent := none, ended := false, calledNext := true, threw := false
              providerCalls := r.providerCalls, storeCalls := r.storeCalls
              inserts := r.inserts }
        | none =>
            { sys := { sys with cache := r.cache, store := r.store }
              session := clearSessionUser req.session
              localsUser := none, sent := some "LOGIN_REQUIRED", ended := true
              calledNext := false, threw := false
              providerCalls := r.providerCalls, storeCalls := r.storeCalls
              inserts := r.inserts }
    | none =>
        { sys := sys, session := clearSessionUser req.session
          localsUser := none, sent := some "LOGIN_REQUIRED", ended := true
          calledNext := false, threw := false
          providerCalls := 0, storeCalls := 0, inserts := 0 }

/-- A sequence of middleware invocations, threading the shared state. -/
def runMw (sys : Sys) : List (Env × Request) → Sys
  | [] => sys
  | (env, req) :: rest => runMw (facebookAuthMiddleware sys env req).sys rest

/-! ## Case equations for the resolver -/

theorem Cache.insert_self (c : Cache) (t : String) (u : InternalUserData) :
    Cache.insert c t u t = some u := by
  simp [Cache.insert]

theorem Cache.erase_self (c : Cache) (k : String) : Cache.erase c k k = none := by
  simp [Cache.erase]

theorem resolve_eq_cached (configured : Bool) (env : Env) (cache : Cache) (st : Store)
    (t : String) (u : InternalUserData) (h : cache t = some u) :
    getUserDataFromAccessToken configured env cache st t =
      { result := some u, cache := cache, store := st
        providerCalls := 0, storeCalls := 0, inserts := 0 } := by
  unfold getUserDataFromAccessToken
  rw [h]

theorem resolve_eq_transport (configured : Bool) (env : Env) (cache : Cache) (st : Store)
    (t : String) (h : cache t = none)
    (hp : env.provider t = ProviderResponse.transportFail) :
    getUserDataFromAccessToken configured env cache st t =
      { result := none, cache := cache, store := st
        providerCalls := 1, storeCalls := 0, inserts := 0 } := by
  unfold getUserDataFromAccessToken
  rw [h, hp]

theorem resolve_eq_parsefail (configured : Bool) (env : Env) (cache : Cache) (st : Store)
    (t : String) (h : cache t = none)
    (hp : env.provider t = ProviderResponse.body none) :
    getUserDataFromAccessToken configured env cache st t =
      { result := none, cache := cache, store := st
        providerCalls := 1, storeCalls := 0, inserts := 0 } := by
  unfold getUserDataFromAccessToken
  rw [h, hp]

theorem resolve_eq_invalid (configured : Bool) (env : Env) (cache : Cache) (st : Store)
    (t : String) (p : Payload) (h : cache t = none)
    (hp : env.provider t = ProviderResponse.body (some p))
    (hv : isValidFacebookUserData p = false) :
    getUserDataFromAccessToken configured env cache st t =
      { result := none, cache := cache, store := st
        providerCalls := 1, storeCalls := 0, inserts := 0 } := by
  unfold getUserDataFromAccessToken
  rw [h, hp]
  simp [hv]

theorem resolve_eq_saveRaised (configured : Bool) (env : Env) (cache : Cache) (st : Store)
    (t : String) (p : Payload) (h : cache t = none)
    (hp : env.provider t = ProviderResponse.body (some p))
    (hv : isValidFacebookUserData p = true)
    (hs : saveUserToDb configured env.insertFails st (formatUserDataAsInternal p) = none) :
    getUserDataFromAccessToken configured env cache st t =
      { result := none, cache := cache, store := st
        providerCalls := 1, storeCalls := 1, inserts := 0 } := by
  unfold getUserDataFromAccessToken
  rw [h, hp]
  simp [hv, hs]

theorem resolve_eq_saveSome_some (configured : Bool) (env : Env) (cache : Cache) (st : Store)
    (t : String) (p : Payload) (so : SaveOut) (u : InternalUserData) (h : cache t = none)
    (hp : env.provider t = ProviderResponse.body (some p))
    (hv : isValidFacebookUserData p = true)
    (hs : saveUserToDb configured env.insertFails st (formatUserDataAsInternal p) = some so)
    (hr : so.result = some u) :
    getUserDataFromAccessToken configured env cache st t =
      { result := some u, cache := cache.insert t u, store := so.store
        providerCalls := 1, storeCalls := 1, inserts := so.inserts } := by
  unfold getUserDataFromAccessToken
  rw [h, hp]
  simp [hv, hs, hr]

theorem resolve_eq_saveSome_none (configured : Bool) (env : Env) (cache : Cache) (st : Store)
    (t : String) (p : Payload) (so : SaveOut) (h : cache t = none)
    (hp : env.provider t = ProviderResponse.body (some p))
    (hv : isValidFacebookUserData p = true)
    (hs : saveUserToDb configured env.insertFails st (formatUserDataAsInternal p) = some so)
    (hr : so.result = none) :
    getUserDataFromAccessToken configured env cache st t =
      { result := none, cache := cache, store := so.store
        providerCalls := 1, storeCalls := 1, inserts := so.inserts } := by
  unfold getUserDataFromAccessToken
  rw [h, hp]
  simp [hv, hs, hr]

/-! ## Derived facts about the store adapter and the resolver -/

theorem saveUserToDb_result_id (configured insertFails : Bool) (st : Store)
    (userData : InternalUserData) (so : SaveOut) (u : InternalUserData)
    (hs : saveUserToDb configured insertFails st userData = some so)
    (hr : so.result = some u) : u.id.isSome = true := by
  unfold saveUserToDb at hs
  split at hs
  · injection hs with hs
    subst hs
    split at hr
    · split at hr
      · unfold addUserToDb at hr
        split at hr
        · simp at hr
        · simp at hr
          subst hr
          rfl
      · simp [rowToInternal] at hr
        subst hr
        rfl
    · unfold addUserToDb at hr
      split at hr
      · simp at hr
      · simp at hr
        subst hr
        rfl
  · simp at hs

theorem saveUserToDb_noInsertFail_succeeds (st : Store) (userData : InternalUserData) :
    ∃ so u, saveUserToDb true false st userData = some so ∧ so.result = some u := by
  cases hfind : getUserFromDb st userData.facebookId with
  | none =>
    exact ⟨addUserToDb false st userData, { userData with id := some st.nextId },
      by simp [saveUserToDb, hfind], by simp [addUserToDb]⟩
  | some row =>
    by_cases hz : row.id = 0
    · exact ⟨addUserToDb false st userData, { userData with id := some st.nextId },
        by simp [saveUserToDb, hfind, hz], by simp [addUserToDb]⟩
    · exact ⟨{ result := some (rowToInternal row), store := st, inserts := 0 },
        rowToInternal row, by simp [saveUserToDb, hfind, hz], rfl⟩

/-- An uncached token always costs exactly one provider call, whatever the
provider answers and whatever the store does. -/
theorem resolve_uncached_providerCalls (configured : Bool) (env : Env) (cache : Cache)
    (st : Store) (t : String) (h : cache t = none) :
    (getUserDataFromAccessToken configured env cache st t).providerCalls = 1 := by
  cases hp : env.provider t with
  | transportFail => rw [resolve_eq_transport configured env cache st t h hp]
  | body op =>
    cases op with
    | none => rw [resolve_eq_parsefail configured env cache st t h hp]
    | some p =>
      cases hv : isValidFacebookUserData p with
      | false => rw [resolve_eq_invalid configured env cache st t p h hp hv]
      | true =>
        cases hs : saveUserToDb configured env.insertFails st (formatUserDataAsInternal p) with
        | none => rw [resolve_eq_saveRaised configured env cache st t p h hp hv hs]
        | some so =>
          cases hr : so.result with
          | none => rw [resolve_eq_saveSome_none configured env cache st t p so h hp hv hs hr]
          | some u => rw [resolve_eq_saveSome_some configured env cache st t p so u h hp hv hs hr]

/-- A successful resolution leaves the resolved record under the token in
the resulting cache. -/
theorem resolve_result_some_cached (configured : Bool) (env : Env) (cache : Cache)
    (st : Store) (t : String) (u : InternalUserData)
    (h : (getUserDataFromAccessToken configured env cache st t).result = some u) :
    (getUserDataFromAccessToken configured env cache st t).cache t = some u := by
  cases hc : cache t with
  | some u0 =>
    rw [resolve_eq_cached configured env cache st t u0 hc] at h ⊢
    simp at h
    subst h
    exact hc
  | none =>
    cases hp : env.provider t with
    | transportFail =>
      rw [resolve_eq_transport configured env cache st t hc hp] at h
      simp at h
    | body op =>
      cases op with
      | none =>
        rw [resolve_eq_parsefail configured env cache st t hc hp] at h
        simp at h
      | some p =>
        cases hv : isValidFacebookUserData p with
        | false =>
          rw [resolve_eq_invalid configured env cache st t p hc hp hv] at h
          simp at h
        | true =>
          cases hs : saveUserToDb configured env.insertFails st (formatUserDataAsInternal p) with
          | none =>
            rw [resolve_eq_saveRaised configured env cache st t p hc hp hv hs] at h
            simp at h
          | some so =>
            cases hr : so.result with
            | none =>
              rw [resolve_eq_saveSome_none configured env cache st t p so hc hp hv hs hr] at h
              simp at h
            | some u1 =>
              rw [resolve_eq_saveSome_some configured env cache st t p so u1 hc hp hv hs hr] at h ⊢
              simp at h
              subst h
              exact Cache.insert_self cache t u1

/-- Every entry of the cache a resolution returns was either already
present, or is the token just resolved, mapped to the successfully
resolved record — which then carries a persisted `id`. -/
theorem resolve_cache_lookup (configured : Bool) (env : Env) (cache : Cache)
    (st : Store) (t t2 : String) (r : InternalUserData)
    (h : (getUserDataFromAccessToken configured env cache st t).cache t2 = some r) :
    cache t2 = some r ∨
      (t2 = t ∧ (getUserDataFromAccessToken configured env cache st t).result = some r ∧
        r.id.isSome = true) := by
  cases hc : cache t with
  | some u0 =>
    rw [resolve_eq_cached configured env cache st t u0 hc] at h
    exact Or.inl h
  | none =>
    cases hp : env.provider t with
    | transportFail =>
      rw [resolve_eq_transport configured env cache st t hc hp] at h
      exact Or.inl h
    | body op =>
      cases op with
      | none =>
        rw [resolve_eq_parsefail configured env cache st t hc hp] at h
        exact Or.inl h
      | some p =>
        cases hv : isValidFacebookUserData p with
        | false =>
          rw [resolve_eq_invalid configured env cache st t p hc hp hv] at h
          exact Or.inl h
        | true =>
          cases hs : saveUserToDb configured env.insertFails st (formatUserDataAsInternal p) with
          | none =>
            rw [resolve_eq_saveRaised configured env cache st t p hc hp hv hs] at h
            exact Or.inl h
          | some so =>
            cases hr : so.result with
            | none =>
              rw [resolve_eq_saveSome_none configured env cache st t p so hc hp hv hs hr] at h
              exact Or.inl h
            | some u1 =>
              rw [resolve_eq_saveSome_some configured env cache st t p so u1 hc hp hv hs hr] at h ⊢
              by_cases ht2 : t2 = t
              · subst ht2
                have h2 : cache.insert t2 u1 t2 = some r := h
                rw [Cache.insert_self] at h2
                have hur : u1 = r := by simpa using h2
                subst hur
                refine Or.inr ⟨rfl, rfl, ?_⟩
                exact saveUserToDb_result_id configured env.insertFails st
                  (formatUserDataAsInternal p) so u1 hs hr
              · have h2 : cache.insert t u1 t2 = some r := h
                unfold Cache.insert at h2
                rw [if_neg ht2] at h2
                exact Or.inl h2

/-! ## Case equations for the middleware -/

theorem mw_eq_logout_noSession (sys : Sys) (env : Env) (req : Request)
    (hroute : isLogoutRoute req.url = true) (hsess : req.session = none) :
    facebookAuthMiddleware sys env req =
      { sys := { sys with cache := sys.cache.erase (tokenKey (extractToken req)) }
        session := none, localsUser := none, sent := none, ended := false
        calledNext := false, threw := true
        providerCalls := 0, storeCalls := 0, inserts := 0 } := by
  unfold facebookAuthMiddleware
  rw [hroute, hsess]
  rfl

theorem mw_eq_logout_session (sys : Sys) (env : Env) (req : Request) (s : Session)
    (hroute : isLogoutRoute req.url = true) (hsess : req.session = some s) :
    facebookAuthMiddleware sys env req =
      { sys := { sys with cache := sys.cache.erase (tokenKey (extractToken req)) }
        session := none, localsUser := none, sent := none, ended := false
        calledNext := true, threw := false
        providerCalls := 0, storeCalls := 0, inserts := 0 } := by
  unfold facebookAuthMiddleware
  rw [hroute, hsess]
  rfl

theorem mw_eq_noToken (sys : Sys) (env : Env) (req : Request)
    (hroute : isLogoutRoute req.url = false) (ht : extractToken req = none) :
    facebookAuthMiddleware sys env req =
      { sys := sys, session := clearSessionUser req.session
        localsUser := none, sent := some "LOGIN_REQUIRED", ended := true
        calledNext := false, threw := false
        providerCalls := 0, storeCalls := 0, inserts := 0 } := by
  unfold facebookAuthMiddleware
  rw [hroute, ht]
  simp

theorem mw_eq_auth_success (sys : Sys) (env : Env) (req : Request) (t : String)
    (u : InternalUserData)
    (hroute : isLogoutRoute req.url = false) (ht : extractToken req = some t)
    (hres : (getUserDataFromAccessToken sys.configured env sys.cache sys.store t).result
      = some u) :
    facebookAuthMiddleware sys env req =
      { sys :=
          { sys with
              cache := (getUserDataFromAccessToken sys.configured env sys.cache sys.store t).cache
              store := (getUserDataFromAccessToken sys.configured env sys.cache sys.store t).store }
        session :=
          match req.session with
          | some _ => some { user := some { facebookAccessToken := some t } }
          | none => none
        localsUser := some
          { id := u.id, facebookId := u.facebookId
            email := u.email, fullName := u.fullName }
        sent := none, ended := false, calledNext := true, threw := false
        providerCalls := (getUserDataFromAccessToken sys.configured env sys.cache sys.store t).providerCalls
        storeCalls := (getUserDataFromAccessToken sys.configured env sys.cache sys.store t).storeCalls
        inserts := (getUserDataFromAccessToken sys.configured env sys.cache sys.store t).inserts } := by
  unfold facebookAuthMiddleware
  rw [hroute, ht]
  simp [hres]

theorem mw_eq_auth_failure (sys : Sys) (env : Env) (req : Request) (t : String)
    (hroute : isLogoutRoute req.url = false) (ht : extractToken req = some t)
    (hres : (getUserDataFromAccessToken sys.configured env sys.cache sys.store t).result
      = none) :
    facebookAuthMiddleware sys env req =
      { sys :=
          { sys with
              cache := (getUserDataFromAccessToken sys.configured env sys.cache sys.store t).cache
              store := (getUserDataFromAccessToken sys.configured env sys.cache sys.store t).store }
        session := clearSessionUser req.session
        localsUser := none, sent := some "LOGIN_REQUIRED", ended := true
        calledNext := false, threw := false
        providerCalls := (getUserDataFromAccessToken sys.configured env sys.cache sys.store t).providerCalls
        storeCalls := (getUserDataFromAccessToken sys.configured env sys.cache sys.store t).storeCalls
        inserts := (getUserDataFromAccessToken sys.configured env sys.cache sys.store t).inserts } := by
  unfold facebookAuthMiddleware
  rw [hroute, ht]
  simp [hres]

/-- Neither the resolver nor the middleware reads
`sessionSaveFails` for anything observable: a `session.save` error is only
logged. -/
theorem mw_env_ext (sys : Sys) (p : String → ProviderResponse) (i b1 b2 : Bool)
    (req : Request) :
    facebookAuthMiddleware sys { provider := p, insertFails := i, sessionSaveFails := b1 } req =
      facebookAuthMiddleware sys { provider := p, insertFails := i, sessionSaveFails := b2 } req := by
  rfl

/-! ## Concrete fixtures (spec §8 scenarios) -/

namespace Sample

def annPayload : Payload :=
  { id := some (JVal.jstr "F1"), name := some (JVal.jstr "Ann")
    email := some (JVal.jstr "a@x.com") }

def annRecord : InternalUserData :=
  { id := some 7, facebookId := JVal.jstr "F1"
    email := JVal.jstr "a@x.com", fullName := JVal.jstr "Ann" }

def noEmailPayload : Payload :=
  { id := some (JVal.jstr "F2"), name := some (JVal.jstr "Bob"), email := none }

def nullFieldsPayload : Payload :=
  { id := some JVal.jnull, name := some (JVal.jstr ""), email := some (JVal.jnum 5) }

def annEnv : Env :=
  { provider := fun _ => ProviderResponse.body (some annPayload)
    insertFails := false, sessionSaveFails := false }

def failEnv : Env :=
  { provider := fun _ => ProviderResponse.transportFail
    insertFails := false, sessionSaveFails := false }

def noEmailEnv : Env :=
  { provider := fun _ => ProviderResponse.body (some noEmailPayload)
    insertFails := false, sessionSaveFails := false }

def nullFieldsEnv : Env :=
  { provider := fun _ => ProviderResponse.body (some nullFieldsPayload)
    insertFails := false, sessionSaveFails := false }

def emptyStore : Store := { rows := [], nextId := 7 }

def rowF1 : Row :=
  { id := 3, facebookId := JVal.jstr "F1"
    email := JVal.jstr "old@x.com", fullName := JVal.jstr "Old Ann" }

def storeF1 : Store := { rows := [rowF1], nextId := 9 }

def cacheT1 : Cache := Cache.insert Cache.empty "T1" annRecord

def bodyT1 : Request :=
  { url := "/api/data", body := some { facebookAccessToken := some "T1" }
    session := none }

def bodyT1Sess : Request :=
  { url := "/api/data", body := some { facebookAccessToken := some "T1" }
    session := some { user := none } }

def noTokenReq : Request := { url := "/api/data", body := none, session := some { user := none } }

def logoutNoSession : Request :=
  { url := "/services/userAuth/logout", body := none, session := none }

def logoutBodyT1 : Request :=
  { url := "/services/userAuth/logout"
    body := some { facebookAccessToken := some "T1" }, session := none }

def logoutSessT1 : Request :=
  { url := "/services/userAuth/logout", body := none
    session := some { user := some { facebookAccessToken := some "T1" } } }

end Sample

/-! ## Claims -/

/-- C1: memoization of resolution. A token present as a cache key resolves
to the cached record immediately with zero provider calls and zero store
calls; a token not yet seen costs exactly one provider call and — when the
payload parses and validates — exactly one store lookup-or-create call;
and a second resolution of the same token after a successful first one
performs zero further provider or store calls. -/
theorem resolver_memoization (configured : Bool) (env envNext : Env) (cache : Cache)
    (st : Store) (t : String) (p : Payload) :
    (∀ u, cache t = some u →
        getUserDataFromAccessToken configured env cache st t =
          { result := some u, cache := cache, store := st
            providerCalls := 0, storeCalls := 0, inserts := 0 })
  ∧ (cache t = none →
      (getUserDataFromAccessToken configured env cache st t).providerCalls = 1)
  ∧ (cache t = none → env.provider t = ProviderResponse.body (some p) →
      isValidFacebookUserData p = true →
      (getUserDataFromAccessToken configured env cache st t).storeCalls = 1)
  ∧ (∀ u, (getUserDataFromAccessToken configured env cache st t).result = some u →
        (getUserDataFromAccessToken configured envNext
            (getUserDataFromAccessToken configured env cache st t).cache
            (getUserDataFromAccessToken configured env cache st t).store t).providerCalls = 0
      ∧ (getUserDataFromAccessToken configured envNext
            (getUserDataFromAccessToken configured env cache st t).cache
            (getUserDataFromAccessToken configured env cache st t).store t).storeCalls = 0) := by
  refine ⟨?_, ?_, ?_, ?_⟩
  · intro u hu
    exact resolve_eq_cached configured env cache st t u hu
  · intro hc
    exact resolve_uncached_providerCalls configured env cache st t hc
  · intro hc hp hv
    cases hs : saveUserToDb configured env.insertFails st (formatUserDataAsInternal p) with
    | none => rw [resolve_eq_saveRaised configured env cache st t p hc hp hv hs]
    | some so =>
      cases hr : so.result with
      | none => rw [resolve_eq_saveSome_none configured env cache st t p so hc hp hv hs hr]
      | some u => rw [resolve_eq_saveSome_some configured env cache st t p so u hc hp hv hs hr]
  · intro u hu
    have hcached := resolve_result_some_cached configured env cache st t u hu
    rw [resolve_eq_cached configured envNext _ _ t u hcached]
    exact ⟨rfl, rfl⟩

/-- Witness for C1 at the spec's scenario: token `"T1"`, profile
`{id:"F1", name:"Ann", email:"a@x.com"}`, generated id 7. -/
theorem resolver_memoization_witness :
    getUserDataFromAccessToken true Sample.annEnv Sample.cacheT1 Sample.emptyStore "T1" =
      { result := some Sample.annRecord, cache := Sample.cacheT1, store := Sample.emptyStore
        providerCalls := 0, storeCalls := 0, inserts := 0 }
  ∧ (getUserDataFromAccessToken true Sample.annEnv Cache.empty Sample.emptyStore "T1").providerCalls = 1
  ∧ (getUserDataFromAccessToken true Sample.annEnv Cache.empty Sample.emptyStore "T1").storeCalls = 1
  ∧ (getUserDataFromAccessToken true Sample.failEnv
        (getUserDataFromAccessToken true Sample.annEnv Cache.empty Sample.emptyStore "T1").cache
        (getUserDataFromAccessToken true Sample.annEnv Cache.empty Sample.emptyStore "T1").store
        "T1").providerCalls = 0
  ∧ (getUserDataFromAccessToken true Sample.failEnv
        (getUserDataFromAccessToken true Sample.annEnv Cache.empty Sample.emptyStore "T1").cache
        (getUserDataFromAccessToken true Sample.annEnv Cache.empty Sample.emptyStore "T1").store
        "T1").storeCalls = 0 := by
  refine ⟨?_, ?_, ?_, ?_, ?_⟩
  · exact (resolver_memoization true Sample.annEnv Sample.failEnv Sample.cacheT1
      Sample.emptyStore "T1" Sample.annPayload).1 Sample.annRecord (by decide)
  · exact (resolver_memoization true Sample.annEnv Sample.failEnv Cache.empty
      Sample.emptyStore "T1" Sample.annPayload).2.1 rfl
  · exact (resolver_memoization true Sample.annEnv Sample.failEnv Cache.empty
      Sample.emptyStore "T1" Sample.annPayload).2.2.1 rfl rfl (by decide)
  · exact ((resolver_memoization true Sample.annEnv Sample.failEnv Cache.empty
      Sample.emptyStore "T1" Sample.annPayload).2.2.2 Sample.annRecord (by decide)).1
  · exact ((resolver_memoization true Sample.annEnv Sample.failEnv Cache.empty
      Sample.emptyStore "T1" Sample.annPayload).2.2.2 Sample.annRecord (by decide)).2

/-- C2: the middleware is not exception-free. On the logout route the code
runs `req.session.destroy()` unconditionally (line 259), so a logout
request without a session object raises a `TypeError` that propagates
synchronously to the caller, contradicting "logout never fails". -/
theorem middleware_logout_without_session_throws :
    (facebookAuthMiddleware (Sys.init true Sample.emptyStore) Sample.failEnv
        Sample.logoutNoSession).threw = true
  ∧ (facebookAuthMiddleware (Sys.init true Sample.emptyStore) Sample.failEnv
        Sample.logoutNoSession).calledNext = false := by
  exact ⟨rfl, rfl⟩

/-- C3: invalid-payload rejection. When the provider's body fails to parse
as JSON, or parses but misses one of `id`, `name`, `email`, resolution of
an uncached token returns `null`, performs no store call, and leaves the
cache unchanged (in particular the token is not added as a key). -/
theorem invalid_payload_rejection (configured : Bool) (env : Env) (cache : Cache)
    (st : Store) (t : String)
    (hc : cache t = none)
    (hbad : env.provider t = ProviderResponse.body none ∨
      ∃ p, env.provider t = ProviderResponse.body (some p) ∧
        isValidFacebookUserData p = false) :
    (getUserDataFromAccessToken configured env cache st t).result = none
  ∧ (getUserDataFromAccessToken configured env cache st t).storeCalls = 0
  ∧ (getUserDataFromAccessToken configured env cache st t).cache = cache
  ∧ (getUserDataFromAccessToken configured env cache st t).cache t = none := by
  rcases hbad with hp | ⟨p, hp, hv⟩
  · rw [resolve_eq_parsefail configured env cache st t hc hp]
    exact ⟨rfl, rfl, rfl, hc⟩
  · rw [resolve_eq_invalid configured env cache st t p hc hp hv]
    exact ⟨rfl, rfl, rfl, hc⟩

/-- Witness for C3 at the spec's scenario: token `"T2"`, provider returns
`{id:"F2", name:"Bob"}` with no email. -/
theorem invalid_payload_rejection_witness :
    (getUserDataFromAccessToken true Sample.noEmailEnv Cache.empty Sample.emptyStore "T2").result = none
  ∧ (getUserDataFromAccessToken true Sample.noEmailEnv Cache.empty Sample.emptyStore "T2").storeCalls = 0
  ∧ (getUserDataFromAccessToken true Sample.noEmailEnv Cache.empty Sample.emptyStore "T2").cache = Cache.empty
  ∧ (getUserDataFromAccessToken true Sample.noEmailEnv Cache.empty Sample.emptyStore "T2").cache "T2" = none :=
  invalid_payload_rejection true Sample.noEmailEnv Cache.empty Sample.emptyStore "T2" rfl
    (Or.inr ⟨Sample.noEmailPayload, rfl, by decide⟩)

/-- C4: `getOrCreate` postcondition for `__saveUserToDb`. When a row with
the supplied `facebookId` exists (and carries a genuine database-generated
nonzero id), no insert is performed and the stored row is returned
verbatim — its stored `email` and `fullName`, not the freshly fetched
ones. When no row matches, exactly one insert of the supplied fields is
performed and the returned record's `id` is the store-generated
identifier; on insert failure the result is `null`. -/
theorem getOrCreate_postcondition (insertFails : Bool) (st : Store)
    (userData : InternalUserData)
    (hwf : st.rows.all (fun r => decide (r.id ≠ 0)) = true) :
    (∀ row, getUserFromDb st userData.facebookId = some row →
        saveUserToDb true insertFails st userData =
          some { result := some (rowToInternal row), store := st, inserts := 0 })
  ∧ (getUserFromDb st userData.facebookId = none → insertFails = false →
      saveUserToDb true insertFails st userData =
        some { result := some { userData with id := some st.nextId }
               store :=
                 { rows := st.rows ++
                     [{ id := st.nextId, facebookId := userData.facebookId
                        email := userData.email, fullName := userData.fullName }]
                   nextId := st.nextId + 1 }
               inserts := 1 })
  ∧ (getUserFromDb st userData.facebookId = none → insertFails = true →
      saveUserToDb true insertFails st userData =
        some { result := none, store := st, inserts := 1 }) := by
  refine ⟨?_, ?_, ?_⟩
  · intro row hrow
    have hmem : row ∈ st.rows := List.mem_of_find?_eq_some hrow
    have hne : row.id ≠ 0 := by
      have := List.all_eq_true.mp hwf row hmem
      exact of_decide_eq_true this
    simp [saveUserToDb, hrow, hne]
  · intro hnone hif
    subst hif
    simp [saveUserToDb, hnone, addUserToDb]
  · intro hnone hif
    subst hif
    simp [saveUserToDb, hnone, addUserToDb]

/-- Witness for C4: an existing row for `"F1"` with stale fields is
returned verbatim (no insert), and with an empty store one insert with the
generated id happens (or `null` on insert failure). -/
theorem getOrCreate_postcondition_witness :
    saveUserToDb true false Sample.storeF1
        { id := none, facebookId := JVal.jstr "F1"
          email := JVal.jstr "a@x.com", fullName := JVal.jstr "Ann" } =
      some { result := some (rowToInternal Sample.rowF1), store := Sample.storeF1, inserts := 0 }
  ∧ saveUserToDb true false Sample.emptyStore
        { id := none, facebookId := JVal.jstr "F1"
          email := JVal.jstr "a@x.com", fullName := JVal.jstr "Ann" } =
      some { result := some
               { id := some Sample.emptyStore.nextId, facebookId := JVal.jstr "F1"
                 email := JVal.jstr "a@x.com", fullName := JVal.jstr "Ann" }
             store :=
               { rows := Sample.emptyStore.rows ++
                   [{ id := Sample.emptyStore.nextId, facebookId := JVal.jstr "F1"
                      email := JVal.jstr "a@x.com", fullName := JVal.jstr "Ann" }]
                 nextId := Sample.emptyStore.nextId + 1 }
             inserts := 1 }
  ∧ saveUserToDb true true Sample.emptyStore
        { id := none, facebookId := JVal.jstr "F1"
          email := JVal.jstr "a@x.com", fullName := JVal.jstr "Ann" } =
      some { result := none, store := Sample.emptyStore, inserts := 1 } := by
  refine ⟨?_, ?_, ?_⟩
  · exact (getOrCreate_postcondition false Sample.storeF1
      { id := none, facebookId := JVal.jstr "F1"
        email := JVal.jstr "a@x.com", fullName := JVal.jstr "Ann" } (by decide)).1
      Sample.rowF1 (by decide)
  · exact (getOrCreate_postcondition false Sample.emptyStore
      { id := none, facebookId := JVal.jstr "F1"
        email := JVal.jstr "a@x.com", fullName := JVal.jstr "Ann" } (by decide)).2.1
      (by decide) rfl
  · exact (getOrCreate_postcondition true Sample.emptyStore
      { id := none, facebookId := JVal.jstr "F1"
        email := JVal.jstr "a@x.com", fullName := JVal.jstr "Ann" } (by decide)).2.2
      (by decide) rfl

/-- Any entry of the cache after one middleware invocation was either
already present, or is the token the middleware just resolved
successfully (hence carries a persisted id). -/
theorem mw_cache_lookup (sys : Sys) (env : Env) (req : Request) (t : String)
    (r : InternalUserData)
    (h : (facebookAuthMiddleware sys env req).sys.cache t = some r) :
    sys.cache t = some r ∨
      (isLogoutRoute req.url = false ∧ extractToken req = some t ∧
        (getUserDataFromAccessToken sys.configured env sys.cache sys.store t).result = some r ∧
        r.id.isSome = true) := by
  cases hroute : isLogoutRoute req.url with
  | true =>
    cases hsess : req.session with
    | none =>
      rw [mw_eq_logout_noSession sys env req hroute hsess] at h
      have h2 : Cache.erase sys.cache (tokenKey (extractToken req)) t = some r := h
      unfold Cache.erase at h2
      by_cases hk : t = tokenKey (extractToken req)
      · rw [if_pos hk] at h2
        exact absurd h2 (by simp)
      · rw [if_neg hk] at h2
        exact Or.inl h2
    | some s =>
      rw [mw_eq_logout_session sys env req s hroute hsess] at h
      have h2 : Cache.erase sys.cache (tokenKey (extractToken req)) t = some r := h
      unfold Cache.erase at h2
      by_cases hk : t = tokenKey (extractToken req)
      · rw [if_pos hk] at h2
        exact absurd h2 (by simp)
      · rw [if_neg hk] at h2
        exact Or.inl h2
  | false =>
    cases htk : extractToken req with
    | none =>
      rw [mw_eq_noToken sys env req hroute htk] at h
      exact Or.inl h
    | some tok =>
      cases hres : (getUserDataFromAccessToken sys.configured env sys.cache sys.store tok).result with
      | some u =>
        rw [mw_eq_auth_success sys env req tok u hroute htk hres] at h
        have h2 : (getUserDataFromAccessToken sys.configured env sys.cache sys.store tok).cache t
            = some r := h
        rcases resolve_cache_lookup sys.configured env sys.cache sys.store tok t r h2 with
          hold | ⟨hteq, hres2, hid⟩
        · exact Or.inl hold
        · subst hteq
          exact Or.inr ⟨rfl, rfl, hres2, hid⟩
      | none =>
        rw [mw_eq_auth_failure sys env req tok hroute htk hres] at h
        have h2 : (getUserDataFromAccessToken sys.configured env sys.cache sys.store tok).cache t
            = some r := h
        rcases resolve_cache_lookup sys.configured env sys.cache sys.store tok t r h2 with
          hold | ⟨hteq, hres2, hid⟩
        · exact Or.inl hold
        · subst hteq
          rw [hres] at hres2
          exact absurd hres2 (by simp)

/-- One middleware invocation preserves "every cached record has a
persisted id". -/
theorem mw_preserves_cacheIds (sys : Sys) (env : Env) (req : Request)
    (hinv : ∀ t r, sys.cache t = some r → r.id.isSome = true) :
    ∀ t r, (facebookAuthMiddleware sys env req).sys.cache t = some r →
      r.id.isSome = true := by
  intro t r h
  rcases mw_cache_lookup sys env req t r h with hold | ⟨_, _, _, hid⟩
  · exact hinv t r hold
  · exact hid

/-- The persisted-id cache property holds along any run of the middleware. -/
theorem runMw_cacheIds (steps : List (Env × Request)) :
    ∀ sys : Sys, (∀ t r, sys.cache t = some r → r.id.isSome = true) →
      ∀ t r, (runMw sys steps).cache t = some r → r.id.isSome = true := by
  induction steps with
  | nil => intro sys hinv t r h; exact hinv t r h
  | cons hd tl ih =>
      intro sys hinv t r h
      exact ih (facebookAuthMiddleware sys hd.1 hd.2).sys
        (mw_preserves_cacheIds sys hd.1 hd.2 hinv) t r h

/-- C5 (counterexample): the cache can hold a record with a null
`facebookId`. One successful login through the middleware, with a provider
payload whose `id` key is JSON `null` (presence-only validation accepts
it), leaves `"T1"` cached with `facebookId = null`. -/
theorem cache_nullValued_facebookId_counterexample :
    ((runMw (Sys.init true Sample.emptyStore) [(Sample.nullFieldsEnv, Sample.bodyT1)]).cache
        "T1").map InternalUserData.facebookId = some JVal.jnull := by
  decide

/-- C5 (amended): after any sequence of middleware invocations starting
from the empty cache, every cached record has a non-null (persisted) `id`;
and a single invocation adds a token as a cache key only when that token
was extracted from the request on a non-logout route and its resolution
fully succeeded with that very record — no failed or partial resolution
adds an entry. (The original claim's "non-null `facebookId`" clause is
dropped: presence-only validation lets a null external ID through.) -/
theorem cache_invariant_amended :
    (∀ (cfg : Bool) (st : Store) (steps : List (Env × Request)) (t : String)
        (r : InternalUserData),
        (runMw (Sys.init cfg st) steps).cache t = some r → r.id.isSome = true)
  ∧ (∀ (sys : Sys) (env : Env) (req : Request) (t : String) (r : InternalUserData),
        (facebookAuthMiddleware sys env req).sys.cache t = some r →
          sys.cache t = some r ∨
            (isLogoutRoute req.url = false ∧ extractToken req = some t ∧
              (getUserDataFromAccessToken sys.configured env sys.cache sys.store t).result
                = some r ∧
              r.id.isSome = true)) := by
  constructor
  · intro cfg st steps t r h
    refine runMw_cacheIds steps (Sys.init cfg st) ?_ t r h
    intro t2 r2 h2
    exact absurd h2 (by simp [Sys.init, Cache.empty])
  · exact mw_cache_lookup

/-- Witness for C5 (amended) at a concrete run: one successful login with
token `"T1"` caches `annRecord`, whose id is persisted. -/
theorem cache_invariant_amended_witness :
    Sample.annRecord.id.isSome = true
  ∧ ((Sys.init true Sample.emptyStore).cache "T1" = some Sample.annRecord ∨
      (isLogoutRoute Sample.bodyT1.url = false ∧ extractToken Sample.bodyT1 = some "T1" ∧
        (getUserDataFromAccessToken (Sys.init true Sample.emptyStore).configured Sample.annEnv
            (Sys.init true Sample.emptyStore).cache
            (Sys.init true Sample.emptyStore).store "T1").result = some Sample.annRecord ∧
        Sample.annRecord.id.isSome = true)) := by
  constructor
  · exact cache_invariant_amended.1 true Sample.emptyStore
      [(Sample.annEnv, Sample.bodyT1)] "T1" Sample.annRecord (by decide)
  · exact cache_invariant_amended.2 (Sys.init true Sample.emptyStore) Sample.annEnv
      Sample.bodyT1 "T1" Sample.annRecord (by decide)

/-- C6: failure-path convergence. On a non-logout route, when no token was
extracted or when resolution of the extracted token yields `null`, the
middleware deletes the session-held identity (`req.session.user`), sends
exactly the JSON body `{error: "LOGIN_REQUIRED"}`, terminates the response,
does not invoke the downstream handler, and raises nothing. -/
theorem failure_path_convergence (sys : Sys) (env : Env) (req : Request)
    (hroute : isLogoutRoute req.url = false)
    (hfail : extractToken req = none ∨
      ∃ t, extractToken req = some t ∧
        (getUserDataFromAccessToken sys.configured env sys.cache sys.store t).result = none) :
    (facebookAuthMiddleware sys env req).session = clearSessionUser req.session
  ∧ (∀ s, req.session = some s →
      (facebookAuthMiddleware sys env req).session = some { s with user := none })
  ∧ (facebookAuthMiddleware sys env req).sent = some "LOGIN_REQUIRED"
  ∧ (facebookAuthMiddleware sys env req).ended = true
  ∧ (facebookAuthMiddleware sys env req).calledNext = false
  ∧ (facebookAuthMiddleware sys env req).threw = false := by
  rcases hfail with ht | ⟨t, ht, hres⟩
  · rw [mw_eq_noToken sys env req hroute ht]
    refine ⟨rfl, ?_, rfl, rfl, rfl, rfl⟩
    intro s hs
    simp [clearSessionUser, hs]
  · rw [mw_eq_auth_failure sys env req t hroute ht hres]
    refine ⟨rfl, ?_, rfl, rfl, rfl, rfl⟩
    intro s hs
    simp [clearSessionUser, hs]

/-- Witness for C6: an unauthenticated request (session present, no token)
and the spec's `"T2"` invalid-payload scenario both converge on the
`LOGIN_REQUIRED` short-circuit. -/
theorem failure_path_convergence_witness :
    (facebookAuthMiddleware (Sys.init true Sample.emptyStore) Sample.noEmailEnv
        Sample.noTokenReq).session = clearSessionUser Sample.noTokenReq.session
  ∧ (facebookAuthMiddleware (Sys.init true Sample.emptyStore) Sample.noEmailEnv
        Sample.noTokenReq).sent = some "LOGIN_REQUIRED"
  ∧ (facebookAuthMiddleware (Sys.init true Sample.emptyStore) Sample.noEmailEnv
        Sample.bodyT1).sent = some "LOGIN_REQUIRED"
  ∧ (facebookAuthMiddleware (Sys.init true Sample.emptyStore) Sample.noEmailEnv
        Sample.bodyT1).calledNext = false := by
  refine ⟨?_, ?_, ?_, ?_⟩
  · exact (failure_path_convergence (Sys.init true Sample.emptyStore) Sample.noEmailEnv
      Sample.noTokenReq rfl (Or.inl rfl)).1
  · exact (failure_path_convergence (Sys.init true Sample.emptyStore) Sample.noEmailEnv
      Sample.noTokenReq rfl (Or.inl rfl)).2.2.1
  · exact (failure_path_convergence (Sys.init true Sample.emptyStore) Sample.noEmailEnv
      Sample.bodyT1 rfl (Or.inr ⟨"T1", rfl, by decide⟩)).2.2.1
  · exact (failure_path_convergence (Sys.init true Sample.emptyStore) Sample.noEmailEnv
      Sample.bodyT1 rfl (Or.inr ⟨"T1", rfl, by decide⟩)).2.2.2.2.1

/-- C7: success-path postcondition. With a token on a non-logout route and
a non-null resolution, the middleware populates
`res.locals.metisoft.user` with the record's `id`, `facebookId`, `email`
and `fullName`; when a session object exists it persists the token into
`req.session.user.facebookAccessToken`; it sends no failure body, does not
terminate the response, invokes the downstream handler, and the outcome is
the same whether or not `session.save` reports an error. -/
theorem success_path_postcondition (sys : Sys) (env : Env) (req : Request)
    (t : String) (u : InternalUserData)
    (hroute : isLogoutRoute req.url = false)
    (ht : extractToken req = some t)
    (hres : (getUserDataFromAccessToken sys.configured env sys.cache sys.store t).result
      = some u) :
    (facebookAuthMiddleware sys env req).localsUser =
      some { id := u.id, facebookId := u.facebookId, email := u.email, fullName := u.fullName }
  ∧ (∀ s, req.session = some s →
      (facebookAuthMiddleware sys env req).session =
        some { user := some { facebookAccessToken := some t } })
  ∧ (facebookAuthMiddleware sys env req).sent = none
  ∧ (facebookAuthMiddleware sys env req).ended = false
  ∧ (facebookAuthMiddleware sys env req).calledNext = true
  ∧ (facebookAuthMiddleware sys env req).threw = false
  ∧ (∀ b, facebookAuthMiddleware sys { env with sessionSaveFails := b } req =
      facebookAuthMiddleware sys env req) := by
  have hmw := mw_eq_auth_success sys env req t u hroute ht hres
  refine ⟨by rw [hmw], ?_, by rw [hmw], by rw [hmw], by rw [hmw], by rw [hmw], ?_⟩
  · intro s hs
    rw [hmw]
    simp [hs]
  · intro b
    cases env with
    | mk p i b0 => exact mw_env_ext sys p i b b0 req

/-- Witness for C7: a login request with token `"T1"`, a live session and
the spec's `"F1"`/`"Ann"` profile. -/
theorem success_path_postcondition_witness :
    (facebookAuthMiddleware (Sys.init true Sample.emptyStore) Sample.annEnv
        Sample.bodyT1Sess).localsUser =
      some { id := Sample.annRecord.id, facebookId := Sample.annRecord.facebookId
             email := Sample.annRecord.email, fullName := Sample.annRecord.fullName }
  ∧ (facebookAuthMiddleware (Sys.init true Sample.emptyStore) Sample.annEnv
        Sample.bodyT1Sess).session =
      some { user := some { facebookAccessToken := some "T1" } }
  ∧ (facebookAuthMiddleware (Sys.init true Sample.emptyStore) Sample.annEnv
        Sample.bodyT1Sess).calledNext = true
  ∧ (facebookAuthMiddleware (Sys.init true Sample.emptyStore) Sample.annEnv
        Sample.bodyT1Sess).sent = none := by
  refine ⟨?_, ?_, ?_, ?_⟩
  · exact (success_path_postcondition (Sys.init true Sample.emptyStore) Sample.annEnv
      Sample.bodyT1Sess "T1" Sample.annRecord rfl rfl (by decide)).1
  · exact (success_path_postcondition (Sys.init true Sample.emptyStore) Sample.annEnv
      Sample.bodyT1Sess "T1" Sample.annRecord rfl rfl (by decide)).2.1
      { user := none } rfl
  · exact (success_path_postcondition (Sys.init true Sample.emptyStore) Sample.annEnv
      Sample.bodyT1Sess "T1" Sample.annRecord rfl rfl (by decide)).2.2.2.2.1
  · exact (success_path_postcondition (Sys.init true Sample.emptyStore) Sample.annEnv
      Sample.bodyT1Sess "T1" Sample.annRecord rfl rfl (by decide)).2.2.1

/-- C8 (counterexample): a logout request whose extracted (body) token is
a cache key but which carries no session. The cache entry is evicted, yet
`req.session.destroy()` raises, so the request does not proceed
downstream — refuting the claim as universally stated. -/
theorem logout_roundtrip_counterexample :
    isLogoutRoute Sample.logoutBodyT1.url = true
  ∧ extractToken Sample.logoutBodyT1 = some "T1"
  ∧ Sample.cacheT1 "T1" = some Sample.annRecord
  ∧ (facebookAuthMiddleware
        { cache := Sample.cacheT1, store := Sample.emptyStore, configured := true }
        Sample.failEnv Sample.logoutBodyT1).calledNext = false
  ∧ (facebookAuthMiddleware
        { cache := Sample.cacheT1, store := Sample.emptyStore, configured := true }
        Sample.failEnv Sample.logoutBodyT1).threw = true := by
  decide

/-- C8 (amended): logout eviction round trip for a request that carries a
session object. After the middleware runs, the token is no longer a cache
key, the session is destroyed, the request proceeds downstream with no
identity populated and no failure body, and a subsequent resolution of the
same token is a cache miss performing a fresh provider call. -/
theorem logout_eviction_roundtrip (sys : Sys) (env envNext : Env) (req : Request)
    (t : String) (s : Session) (r : InternalUserData)
    (hroute : isLogoutRoute req.url = true)
    (hsess : req.session = some s)
    (ht : extractToken req = some t)
    (_hcached : sys.cache t = some r) :
    (facebookAuthMiddleware sys env req).sys.cache t = none
  ∧ (facebookAuthMiddleware sys env req).session = none
  ∧ (facebookAuthMiddleware sys env req).calledNext = true
  ∧ (facebookAuthMiddleware sys env req).threw = false
  ∧ (facebookAuthMiddleware sys env req).localsUser = none
  ∧ (facebookAuthMiddleware sys env req).sent = none
  ∧ (getUserDataFromAccessToken (facebookAuthMiddleware sys env req).sys.configured envNext
      (facebookAuthMiddleware sys env req).sys.cache
      (facebookAuthMiddleware sys env req).sys.store t).providerCalls = 1 := by
  rw [mw_eq_logout_session sys env req s hroute hsess]
  have herase : Cache.erase sys.cache (tokenKey (extractToken req)) t = none := by
    rw [ht]
    unfold Cache.erase tokenKey
    simp
  refine ⟨herase, rfl, rfl, rfl, rfl, rfl, ?_⟩
  exact resolve_uncached_providerCalls sys.configured envNext _ sys.store t herase

/-- Witness for C8 (amended) at the spec's scenario: logout with session
token `"T1"` previously cached. -/
theorem logout_eviction_roundtrip_witness :
    (facebookAuthMiddleware
        { cache := Sample.cacheT1, store := Sample.emptyStore, configured := true }
        Sample.failEnv Sample.logoutSessT1).sys.cache "T1" = none
  ∧ (facebookAuthMiddleware
        { cache := Sample.cacheT1, store := Sample.emptyStore, configured := true }
        Sample.failEnv Sample.logoutSessT1).session = none
  ∧ (facebookAuthMiddleware
        { cache := Sample.cacheT1, store := Sample.emptyStore, configured := true }
        Sample.failEnv Sample.logoutSessT1).calledNext = true
  ∧ (facebookAuthMiddleware
        { cache := Sample.cacheT1, store := Sample.emptyStore, configured := true }
        Sample.failEnv Sample.logoutSessT1).localsUser = none
  ∧ (getUserDataFromAccessToken
        (facebookAuthMiddleware
          { cache := Sample.cacheT1, store := Sample.emptyStore, configured := true }
          Sample.failEnv Sample.logoutSessT1).sys.configured Sample.annEnv
        (facebookAuthMiddleware
          { cache := Sample.cacheT1, store := Sample.emptyStore, configured := true }
          Sample.failEnv Sample.logoutSessT1).sys.cache
        (facebookAuthMiddleware
          { cache := Sample.cacheT1, store := Sample.emptyStore, configured := true }
          Sample.failEnv Sample.logoutSessT1).sys.store "T1").providerCalls = 1 := by
  have h := logout_eviction_roundtrip
    { cache := Sample.cacheT1, store := Sample.emptyStore, configured := true }
    Sample.failEnv Sample.annEnv Sample.logoutSessT1 "T1"
    { user := some { facebookAccessToken := some "T1" } } Sample.annRecord
    rfl rfl rfl (by decide)
  exact ⟨h.1, h.2.1, h.2.2.1, h.2.2.2.2.1, h.2.2.2.2.2.2⟩

/-- C9 (implicit): validation is presence-only. Any parsed payload with
`id`, `name` and `email` present as keys validates, whatever the values
(null, empty string, numbers included); it is translated field-for-field,
and — when the store cooperates — persisted, cached under the token, and
returned as a successful resolution. -/
theorem validation_presence_only (env : Env) (cache : Cache) (st : Store)
    (t : String) (p : Payload)
    (hid : p.id.isSome = true) (hname : p.name.isSome = true)
    (hemail : p.email.isSome = true) :
    isValidFacebookUserData p = true
  ∧ formatUserDataAsInternal p =
      { id := none, facebookId := p.id.getD JVal.jundef
        fullName := p.name.getD JVal.jundef, email := p.email.getD JVal.jundef }
  ∧ (cache t = none → env.provider t = ProviderResponse.body (some p) →
      env.insertFails = false →
      ∃ u, (getUserDataFromAccessToken true env cache st t).result = some u
        ∧ (getUserDataFromAccessToken true env cache st t).cache t = some u) := by
  have hv : isValidFacebookUserData p = true := by
    simp [isValidFacebookUserData, hid, hname, hemail]
  refine ⟨hv, rfl, ?_⟩
  intro hc hp hif
  obtain ⟨so, u, hs, hr⟩ := saveUserToDb_noInsertFail_succeeds st (formatUserDataAsInternal p)
  have hs2 : saveUserToDb true env.insertFails st (formatUserDataAsInternal p) = some so := by
    rw [hif]
    exact hs
  rw [resolve_eq_saveSome_some true env cache st t p so u hc hp hv hs2 hr]
  exact ⟨u, rfl, Cache.insert_self cache t u⟩

/-- Witness for C9 at a payload with a null id, an empty-string name and a
numeric email: validation passes and the resolution succeeds and caches. -/
theorem validation_presence_only_witness :
    isValidFacebookUserData Sample.nullFieldsPayload = true
  ∧ formatUserDataAsInternal Sample.nullFieldsPayload =
      { id := none, facebookId := Sample.nullFieldsPayload.id.getD JVal.jundef
        fullName := Sample.nullFieldsPayload.name.getD JVal.jundef
        email := Sample.nullFieldsPayload.email.getD JVal.jundef }
  ∧ (∃ u, (getUserDataFromAccessToken true Sample.nullFieldsEnv Cache.empty
        Sample.emptyStore "T1").result = some u
      ∧ (getUserDataFromAccessToken true Sample.nullFieldsEnv Cache.empty
        Sample.emptyStore "T1").cache "T1" = some u) := by
  have h := validation_presence_only Sample.nullFieldsEnv Cache.empty Sample.emptyStore
    "T1" Sample.nullFieldsPayload (by decide) (by decide) (by decide)
  exact ⟨h.1, h.2.1, h.2.2 rfl rfl rfl⟩

/-- C10 (implicit): graceful failure when unconfigured. With no database
connection handle installed, resolving an uncached token whose payload is
valid reaches the store adapter (one lookup-or-create call is attempted),
the raise is caught inside the chain, resolution returns `null` without
caching, and the middleware answers with the structured `LOGIN_REQUIRED`
failure instead of crashing. -/
theorem unconfigured_graceful_failure (env : Env) (cache : Cache) (st : Store)
    (t : String) (p : Payload)
    (hc : cache t = none)
    (hp : env.provider t = ProviderResponse.body (some p))
    (hv : isValidFacebookUserData p = true) :
    (getUserDataFromAccessToken false env cache st t).result = none
  ∧ (getUserDataFromAccessToken false env cache st t).storeCalls = 1
  ∧ (getUserDataFromAccessToken false env cache st t).cache = cache
  ∧ (∀ req : Request, isLogoutRoute req.url = false → extractToken req = some t →
        (facebookAuthMiddleware { cache := cache, store := st, configured := false } env
          req).sent = some "LOGIN_REQUIRED"
      ∧ (facebookAuthMiddleware { cache := cache, store := st, configured := false } env
          req).ended = true
      ∧ (facebookAuthMiddleware { cache := cache, store := st, configured := false } env
          req).calledNext = false
      ∧ (facebookAuthMiddleware { cache := cache, store := st, configured := false } env
          req).threw = false) := by
  have hs : saveUserToDb false env.insertFails st (formatUserDataAsInternal p) = none := rfl
  have heq := resolve_eq_saveRaised false env cache st t p hc hp hv hs
  refine ⟨by rw [heq], by rw [heq], by rw [heq], ?_⟩
  intro req hroute htk
  have hres : (getUserDataFromAccessToken false env cache st t).result = none := by
    rw [heq]
  rw [mw_eq_auth_failure { cache := cache, store := st, configured := false } env req t
    hroute htk hres]
  exact ⟨rfl, rfl, rfl, rfl⟩

/-- Witness for C10: an unconfigured system, token `"T1"` with the valid
`"F1"`/`"Ann"` payload: resolution fails cleanly and the middleware sends
`LOGIN_REQUIRED`. -/
theorem unconfigured_graceful_failure_witness :
    (getUserDataFromAccessToken false Sample.annEnv Cache.empty Sample.emptyStore
        "T1").result = none
  ∧ (getUserDataFromAccessToken false Sample.annEnv Cache.empty Sample.emptyStore
        "T1").storeCalls = 1
  ∧ (facebookAuthMiddleware
        { cache := Cache.empty, store := Sample.emptyStore, configured := false }
        Sample.annEnv Sample.bodyT1).sent = some "LOGIN_REQUIRED"
  ∧ (facebookAuthMiddleware
        { cache := Cache.empty, store := Sample.emptyStore, configured := false }
        Sample.annEnv Sample.bodyT1).threw = false := by
  have h := unconfigured_graceful_failure Sample.annEnv Cache.empty Sample.emptyStore
    "T1" Sample.annPayload rfl rfl (by decide)
  have h4 := h.2.2.2 Sample.bodyT1 rfl rfl
  exact ⟨h.1, h.2.1, h4.1, h4.2.2.2⟩

end FacebookAuth
